import Mathlib

/-!
Verification development for the Authl identity-verification library.

The definitions below are a shallow embedding of the Python sources:
  authl/__init__.py           (dispatcher)
  authl/disposition.py        (outcome values)
  authl/handlers/indieauth.py (endpoint discovery, verify_id, check_callback)
  authl/handlers/email_addr.py (magic-link rate limiting)
  authl/webfinger.py          (webfinger resolver)

Conventions used throughout:
  * Python `None` versus values is modelled with `Option`.
  * Python truthiness of strings (empty string is falsy) is modelled
    explicitly where the source relies on it.
  * Code that can raise an exception is modelled in `Except PyExc`.
  * Wall-clock times and durations are modelled as rationals.
  * String processing is written over `List Char` with structural
    recursion so that concrete instances evaluate inside the kernel.
-/

namespace Authl

/-- Exceptions that can escape the embedded code. -/
inductive PyExc where
  | attributeError (msg : String)
  | netError (msg : String)
deriving Repr, DecidableEq

/-- Python string truthiness for an optional string: `None` and the empty
string are falsy, every other string is truthy. -/
def pyStrTruthy : Option String → Bool
  | none => false
  | some s => s ≠ ""

/-- A single quote character, used in messages produced from Python
KeyError values. -/
def sq : String := String.mk [Char.ofNat 39]

/-- A semicolon character (kept out of string literals for the benefit of
the surrounding tooling). -/
def semi : Char := Char.ofNat 59

/-- Split a character list on a separator character; mirrors the semantics
of Python `str.split(sep)` for a one-character separator. -/
def splitOnChar (c : Char) : List Char → List (List Char)
  | [] => [[]]
  | x :: xs =>
    match splitOnChar c xs with
    | [] => [[]]
    | r :: rs => if x = c then [] :: r :: rs else (x :: r) :: rs

/-- Join character lists with a separator character; mirrors Python
`sep.join(parts)` for a one-character separator. -/
def joinWith (c : Char) : List (List Char) → List Char
  | [] => []
  | [x] => x
  | x :: y :: rest => x ++ c :: joinWith c (y :: rest)

/-- Split a string on a separator character. -/
def strSplit (s : String) (c : Char) : List String :=
  (splitOnChar c s.data).map String.mk

/-- Join strings with a separator character. -/
def strJoin (c : Char) (l : List String) : String :=
  String.mk (joinWith c (l.map String.data))

/-- Lowercase every character of a string. -/
def lowerStr (s : String) : String := String.mk (s.data.map Char.toLower)

/-! ## urllib.parse model

A parsed URL mirroring the six components of the result of
`urllib.parse.urlparse`. -/

structure ParsedUrl where
  scheme : String
  netloc : String
  path : String
  params : String
  query : String
  fragment : String
deriving Repr, DecidableEq

/-- Characters allowed after the first character of a URL scheme. -/
def schemeChars (c : Char) : Bool := c.isAlphanum || c = '+' || c = '-' || c = '.'

/-- A valid URL scheme: a letter followed by letters, digits, `+`, `-`, `.`. -/
def isValidScheme (s : String) : Bool :=
  match s.data with
  | [] => false
  | c :: rest => c.isAlpha && rest.all schemeChars

/-- `_splitparams` of urllib.parse: split `;params` off the last path
segment of the URL, when present. -/
def splitParams (u : String) : String × String :=
  if u.data.contains semi then
    if u.data.contains '/' then
      let segs := strSplit u '/'
      let last := segs.getLastD ""
      if last.data.contains semi then
        let pieces := strSplit last semi
        (strJoin '/' (segs.dropLast ++ [pieces.headD ""]), strJoin semi pieces.tail)
      else (u, "")
    else
      let pieces := strSplit u semi
      (pieces.headD "", strJoin semi pieces.tail)
  else (u, "")

/-- Does the string start with two slashes, as in `url[:2] == chr(47)*2`. -/
def startsSlashSlash (s : String) : Bool :=
  match s.data with
  | '/' :: '/' :: _ => true
  | _ => false

/-- Does the string start with a slash. -/
def startsSlash (s : String) : Bool :=
  match s.data with
  | '/' :: _ => true
  | _ => false

/-- Embedding of `urllib.parse.urlparse`: split off the fragment at the
first `#`, the query at the first `?`, then a valid scheme before the first
`:`, then a `//netloc` prefix, then `;params` from the last path segment. -/
def urlparse (s : String) : ParsedUrl :=
  let fsplit := strSplit s '#'
  let afterF := fsplit.headD ""
  let fragment := strJoin '#' fsplit.tail
  let qsplit := strSplit afterF '?'
  let afterQ := qsplit.headD ""
  let query := strJoin '?' qsplit.tail
  let csplit := strSplit afterQ ':'
  let schemeCand := csplit.headD ""
  let hasScheme := decide (csplit.length ≥ 2) && isValidScheme schemeCand
  let scheme := if hasScheme then lowerStr schemeCand else ""
  let rest := if hasScheme then strJoin ':' csplit.tail else afterQ
  let netloc :=
    if startsSlashSlash rest then String.mk ((rest.data.drop 2).takeWhile (· ≠ '/')) else ""
  let rest2 :=
    if startsSlashSlash rest then String.mk ((rest.data.drop 2).dropWhile (· ≠ '/')) else rest
  let pp := splitParams rest2
  { scheme := scheme, netloc := netloc, path := pp.1,
    params := pp.2, query := query, fragment := fragment }

/-- Embedding of `urllib.parse.urlunparse` composed with `urlunsplit`. -/
def urlunparse (p : ParsedUrl) : String :=
  let url0 := if p.params ≠ "" then p.path ++ String.mk [semi] ++ p.params else p.path
  let url1 :=
    if p.netloc ≠ "" ∨ (url0 ≠ "" ∧ startsSlashSlash url0) then
      "//" ++ p.netloc ++ (if url0 ≠ "" ∧ ¬ startsSlash url0 then "/" ++ url0 else url0)
    else url0
  let url2 := if p.scheme ≠ "" then p.scheme ++ ":" ++ url1 else url1
  let url3 := if p.query ≠ "" then url2 ++ "?" ++ p.query else url2
  if p.fragment ≠ "" then url3 ++ "#" ++ p.fragment else url3

/-! ## indieauth.verify_id

Embedding of `authl/handlers/indieauth.py`, lines 65 to 117, split into the
same stages as the source. -/

/-- Lines 84 and 87 to 89 of indieauth.py: split the original path on `/`
and remove a single trailing empty component when present. -/
def origSegs (orig : ParsedUrl) : List String :=
  let l := strSplit orig.path '/'
  if l.getLast? = some "" then l.dropLast else l

/-- The normalization loop of indieauth.py lines 95 to 103: the stack
starts as a single empty segment; `..` pops the stack and the function
rejects (returns `none`) when the stack empties; `.` and empty segments are
dropped; every other segment is appended. -/
def normLoop (stack : List String) : List String → Option (List String)
  | [] => some stack
  | part :: rest =>
    if part = ".." then
      let popped := stack.dropLast
      if popped = [] then none else normLoop popped rest
    else if part = "" ∨ part = "." then normLoop stack rest
    else normLoop (stack ++ [part]) rest

/-- Lines 94 to 106 of indieauth.py: normalize the response path, keeping a
trailing empty segment when the original response path ended in `/`. -/
def respNormSegs (resp : ParsedUrl) : Option (List String) :=
  let resp_path := strSplit resp.path '/'
  match normLoop [""] resp_path with
  | none => none
  | some stack =>
    some (if resp_path.getLast? = some "" then stack ++ [""] else stack)

/-- Embedding of `verify_id` from indieauth.py lines 65 to 117, over parsed
URLs: reject on netloc mismatch, reject when normalization escapes the
root, reject unless the original segments are a leading run of the
normalized response segments, and otherwise return the response URL with
its path replaced by the joined normalized segments. -/
def verify_id (orig resp : ParsedUrl) : Option ParsedUrl :=
  if orig.netloc ≠ resp.netloc then none
  else
    match respNormSegs resp with
    | none => none
    | some norm =>
      if norm.take (origSegs orig).length ≠ origSegs orig then none
      else some { resp with path := strJoin '/' norm }

/-- `verify_id` on raw URL strings, as the source takes them: parse both
inputs, verify, and unparse the result. -/
def verify_id_str (request_id response_id : String) : Option String :=
  (verify_id (urlparse request_id) (urlparse response_id)).map urlunparse

/-! ## Dispositions

Embedding of authl/disposition.py. The Error and Verified variants carry
the optional redirection value that the IndieAuth handler call sites
supply; the Email handler leaves it absent. -/

inductive Disposition where
  | redirect (url : String)
  | verified (identity : String) (redir : Option String) (profile : List (String × String))
  | notify (cdata : String)
  | error (message : String) (redir : Option String)
deriving Repr, DecidableEq

/-! ## Dispatcher

Embedding of `Authl.get_handler_for_url` from authl/__init__.py lines
30 to 42. A handler is abstracted by the two capabilities the dispatcher
consults; the HTTP GET is a parameter that either yields a response or
raises. The source performs `requests.get(url)` with no exception handler,
so a network failure propagates out of the dispatcher. -/

structure PyHandler where
  handles_url : String → Option String
  handles_page : List (String × String) → String → Bool

structure GetResponse where
  headers : List (String × String)
  text : String

/-- The first loop of get_handler_for_url: `for pos, handler in
enumerate(self._handlers): if handler.handles_url(url): return handler,
pos`. The `if` uses Python string truthiness on the returned value. -/
def findFirstUrl (url : String) : List PyHandler → Nat → Option (PyHandler × Nat)
  | [], _ => none
  | h :: rest, pos =>
    if pyStrTruthy (h.handles_url url) then some (h, pos)
    else findFirstUrl url rest (pos + 1)

/-- The second loop of get_handler_for_url, over
`handler.handles_page(request.headers, request.text)`. -/
def findFirstPage (headers : List (String × String)) (text : String) :
    List PyHandler → Nat → Option (PyHandler × Nat)
  | [], _ => none
  | h :: rest, pos =>
    if h.handles_page headers text then some (h, pos)
    else findFirstPage headers text rest (pos + 1)

/-- Embedding of get_handler_for_url: consult handles_url in registration
order, then fetch the page and consult handles_page in registration order;
`.ok none` models the `(None, -1)` no-handler return value. -/
def get_handler_for_url (handlers : List PyHandler)
    (httpGet : String → Except PyExc GetResponse) (url : String) :
    Except PyExc (Option (PyHandler × Nat)) :=
  match findFirstUrl url handlers 0 with
  | some r => .ok (some r)
  | none =>
    match httpGet url with
    | .error e => .error e
    | .ok resp =>
      match findFirstPage resp.headers resp.text handlers 0 with
      | some r => .ok (some r)
      | none => .ok none

/-! ## IndieAuth check_callback

Embedding of `IndieAuth.check_callback` from authl/handlers/indieauth.py
lines 194 to 233. The token store unpacking lives in authl/utils.py, which
is not part of the sources; it is passed in as a capability (see
`check_callback`). The POST to the endpoint is likewise a capability. -/

/-- The stored pending transaction `((id_url, endpoint, callback_uri),
redir)` recovered from the state token. -/
structure Transaction where
  id_url : String
  endpoint : String
  callback_uri : String
  redir : Option String
deriving Repr, DecidableEq

/-- The response of the POST code exchange: its HTTP status code and its
body viewed as JSON. `json = none` models a body on which `request.json()`
raises ValueError; `json = some obj` models a JSON object given as
key-value pairs. -/
structure PostResponse where
  status_code : Nat
  json : Option (List (String × String))
deriving Repr, DecidableEq

/-- Lookup in a JSON object, as `response[key]` but returning `none`
instead of raising KeyError. -/
def jsonLookup (obj : List (String × String)) (key : String) : Option String :=
  (obj.find? (fun p => p.1 = key)).map (·.2)

/-- The message of the Error built from a caught KeyError: `"Missing " +
str(key)` where `str(KeyError(k))` is the key in single quotes. -/
def keyErrMsg (k : String) : String := "Missing " ++ sq ++ k ++ sq

/-- Embedding of IndieAuth.check_callback.

Parameters:
  * `unpack_token` — modelled from the spec: `utils.unpack_token` (the
    file authl/utils.py is not among the sources) resolves the state token
    in the token store and raises an Error disposition when the token is
    unknown or expired; the source catches that disposition and returns
    it. Here it is a capability returning `Except Disposition Transaction`.
  * `post` — the `requests.post` code exchange, taking the endpoint and
    the auth code (the client_id and redirect_uri form fields are closed
    over by the capability); it may raise a network error, which the
    source does not catch.
  * `get` — the callback query parameters.

The branch for a response body that is not valid JSON evaluates
`request.headersversion(...)` while logging; a requests Response has no
attribute of that name (the attribute is `headers`), so that branch raises
AttributeError, and only KeyError is caught by the enclosing handler. -/
def check_callback (unpack_token : String → Except Disposition Transaction)
    (post : String → String → Except PyExc PostResponse)
    (get : String → Option String) : Except PyExc Disposition :=
  if ¬ pyStrTruthy (get "state") then .ok (.error "No transaction provided" none)
  else
    match unpack_token ((get "state").getD "") with
    | .error disp => .ok disp
    | .ok txn =>
      match get "code" with
      | none => .ok (.error (keyErrMsg "code") txn.redir)
      | some code =>
        match post txn.endpoint code with
        | .error e => .error e
        | .ok resp =>
          if resp.status_code ≠ 200 then .ok (.error "Unable to verify identity" txn.redir)
          else
            match resp.json with
            | none => .error (.attributeError "headersversion")
            | some obj =>
              match jsonLookup obj "me" with
              | none => .ok (.error (keyErrMsg "me") txn.redir)
              | some me =>
                match verify_id_str txn.id_url me with
                | none => .ok (.error "Identity URL does not match" txn.redir)
                | some response_id => .ok (.verified response_id txn.redir obj)

/-! ## IndieAuth find_endpoint

Embedding of `find_endpoint` from authl/handlers/indieauth.py lines
20 to 62 together with its nested `_derive_endpoint`. The endpoint cache
is passed in and returned explicitly; `urljoin` (from urllib) and the page
fetch (`utils.request_url` plus the BeautifulSoup parse) are
capabilities. -/

/-- A BeautifulSoup document abstracted to the one query the source makes:
the href of a `link rel=authorization_endpoint` element, when present. -/
structure SoupDoc where
  authHref : Option String
deriving Repr, DecidableEq

/-- A fetched page: its link headers and its parsed body. -/
structure FetchedPage where
  links : List (String × String)
  soup : SoupDoc
deriving Repr, DecidableEq

/-- The nested `_derive_endpoint(links, content)`: prefer the
authorization_endpoint link header; otherwise use the link element,
resolved against id_url when id_url is truthy. -/
def derive_endpoint (ujoin : String → String → String) (id_url : Option String)
    (links : List (String × String)) (content : Option SoupDoc) : Option String :=
  match (if links ≠ [] then jsonLookup links "authorization_endpoint" else none) with
  | some u => some u
  | none =>
    match content with
    | some doc =>
      match doc.authHref with
      | some href =>
        some (if pyStrTruthy id_url then ujoin (id_url.getD "") href else href)
      | none => none
    | none => none

/-- The value of a find_endpoint call: the returned endpoint, whether the
network was fetched, and the endpoint cache after the call. -/
structure FindEndpointResult where
  endpoint : Option String
  fetched : Bool
  cache : String → Option String

/-- Embedding of find_endpoint: read the cached endpoint; derive one from
the supplied links or content when either was supplied; fetch the identity
URL only when id_url is truthy and neither a fresh value nor a cached one
exists; write a freshly found value back to the cache; return the found
value, or the cached one when nothing fresh was found. -/
def find_endpoint (ujoin : String → String → String)
    (cache : String → Option String) (fetchPage : String → FetchedPage)
    (id_url : Option String) (links : List (String × String))
    (content : Option SoupDoc) : FindEndpointResult :=
  let cached := match id_url with | some u => cache u | none => none
  let found0 :=
    if links ≠ [] ∨ content.isSome then derive_endpoint ujoin id_url links content
    else none
  let doFetch := pyStrTruthy id_url && !(pyStrTruthy found0) && !(pyStrTruthy cached)
  let found :=
    if doFetch then
      let page := fetchPage (id_url.getD "")
      derive_endpoint ujoin id_url page.links (some page.soup)
    else found0
  let cacheNew :=
    if pyStrTruthy found && pyStrTruthy id_url then
      fun k => if id_url = some k then found else cache k
    else cache
  { endpoint := if pyStrTruthy found then found else cached
    fetched := doFetch
    cache := cacheNew }

/-! ## Email magic-link handler: rate limiting

Embedding of `EmailAddress.initiate_auth` from
authl/handlers/email_addr.py lines 115 to 147. Wall-clock seconds are
rationals; `time.time()` is the explicit `now` argument. The destination
address (`urllib.parse.urlparse(id_url).path`) is taken directly. The
signed link construction (`ska.sign_url`), the message template, and the
injected send function do not affect the rate-limit state machine; the
`sent` flag records whether the send function was invoked. -/

/-- `math.ceil` on a rational, as an integer. -/
def ratCeil (q : ℚ) : ℤ := -(Rat.floor (-q))

/-- The please-wait Error message: DEFAULT_WAIT_ERROR with the address and
the whole number of minutes substituted. -/
def waitErrorMsg (addr : String) (minutes : ℤ) : String :=
  "An email has already been sent to " ++ addr ++
    ". Please be\npatient; you may try again in " ++ toString minutes ++ " minutes."

/-- The observable outcome of one initiate_auth call: the returned
disposition, whether the send function ran, and the rate-limit cache
(`self._timeouts`) after the call. -/
structure EmailAuthResult where
  disp : Disposition
  sent : Bool
  timeouts : String → Option ℚ

/-- Lines 127 to 147 of email_addr.py: sign the link, send the message,
record `next allowed = now + lifetime / 2`, and return Notify. -/
def email_send_branch (timeouts : String → Option ℚ) (lifetime : ℚ) (cdata : String)
    (now : ℚ) (dest_addr : String) : EmailAuthResult :=
  { disp := .notify cdata
    sent := true
    timeouts := fun a => if a = dest_addr then some (now + lifetime / 2) else timeouts a }

/-- Embedding of EmailAddress.initiate_auth: when a still-future
next-allowed timestamp exists for the address, extend the remaining wait
by the factor 6/5, store `now + wait_time`, and return an Error reporting
`ceil(wait_time / 60)` minutes without sending; otherwise send and record
the next-allowed time. -/
def email_initiate_auth (timeouts : String → Option ℚ) (lifetime : ℚ) (cdata : String)
    (now : ℚ) (dest_addr : String) : EmailAuthResult :=
  match timeouts dest_addr with
  | some t =>
    if t > now then
      let wait_time := (t - now) * (6 / 5 : ℚ)
      { disp := .error (waitErrorMsg dest_addr (ratCeil (wait_time / 60))) none
        sent := false
        timeouts := fun a => if a = dest_addr then some (now + wait_time) else timeouts a }
    else email_send_branch timeouts lifetime cdata now dest_addr
  | none => email_send_branch timeouts lifetime cdata now dest_addr

/-! ## Webfinger resolver

Embedding of `get_profiles` from authl/webfinger.py. -/

/-- One entry of the `links` array of a webfinger JSON document. -/
structure WfLink where
  rel : String
  href : String
deriving Repr, DecidableEq

/-- The webfinger HTTP response: its status code, and the `links` array of
its JSON body; `links = none` models any body on which the JSON decode or
the link extraction raises (the source catches every exception and
returns the empty set). -/
structure WfResponse where
  status_code : Nat
  links : Option (List WfLink)
deriving Repr, DecidableEq

/-- `html.escape` with quoting, applied characterwise. -/
def htmlEscapeChar (c : Char) : List Char :=
  if c = '&' then "&amp;".data
  else if c = '<' then "&lt;".data
  else if c = '>' then "&gt;".data
  else if c = '"' then "&quot;".data
  else if c = Char.ofNat 39 then "&#x27;".data
  else [c]

/-- `html.escape(s, quote=True)`. -/
def htmlEscape (s : String) : String :=
  String.mk (s.data.flatMap htmlEscapeChar)

/-- The regex match `re.match(r"@([^@]+)@(.*)$", url)`: the string starts
with `@`, a nonempty run of characters other than `@` forms the user,
another `@` follows, and the rest is the domain. The dot does not match a
newline, and the dollar also matches just before one trailing newline. -/
def webfinger_match (s : String) : Option (String × String) :=
  match s.data with
  | '@' :: rest =>
    let user := rest.takeWhile (· ≠ '@')
    if user.length = 0 then none
    else
      match rest.drop user.length with
      | '@' :: dom =>
        if ¬ dom.contains '\n' then some (String.mk user, String.mk dom)
        else if dom.getLast? = some '\n' ∧ ¬ dom.dropLast.contains '\n' then
          some (String.mk user, String.mk dom.dropLast)
        else none
      | _ => none
  | _ => none

/-- The webfinger resource URL the source builds. -/
def wfResource (user domain : String) : String :=
  "https://" ++ domain ++ "/.well-known/webfinger?resource=" ++
    htmlEscape ("acct:" ++ user ++ "@" ++ domain)

/-- The relations whose hrefs are collected from the links array. -/
def wfRels : List String := ["http://webfinger.net/rel/profile-page", "profile", "self"]

/-- Embedding of webfinger.get_profiles: no match gives the empty set; a
network failure or any decode failure gives the empty set; a non-2xx
status gives the single fallback profile URL; otherwise the hrefs of the
links with a recognized rel (a set, modelled as a duplicate-free list). -/
def get_profiles (fetch : String → Except PyExc WfResponse) (url : String) :
    List String :=
  match webfinger_match url with
  | none => []
  | some (user, domain) =>
    match fetch (wfResource user domain) with
    | .error _ => []
    | .ok resp =>
      if ¬ (200 ≤ resp.status_code ∧ resp.status_code < 300) then
        ["https://" ++ domain ++ "/@" ++ user]
      else
        match resp.links with
        | none => []
        | some links =>
          (links.filterMap fun l => if l.rel ∈ wfRels then some l.href else none).eraseDups

/-! ## Concrete values used by the witnesses -/

def handlerA : PyHandler := { handles_url := fun u => some u, handles_page := fun _ _ => true }

def handlerB : PyHandler := { handles_url := fun u => some u, handles_page := fun _ _ => false }

def nullHandler : PyHandler := { handles_url := fun _ => none, handles_page := fun _ _ => false }

def okGet : String → Except PyExc GetResponse := fun _ => .ok { headers := [], text := "" }

def failGet : String → Except PyExc GetResponse := fun _ => .error (.netError "ConnectionError")

def txn1 : Transaction :=
  { id_url := "https://user.example.com/", endpoint := "https://auth.example.com/auth",
    callback_uri := "https://app.example.com/cb", redir := some "/" }

def unpack1 : String → Except Disposition Transaction := fun s =>
  if s = "goodstate" then .ok txn1 else .error (.error "Invalid transaction" none)

def postBadJson : String → String → Except PyExc PostResponse := fun _ _ =>
  .ok { status_code := 200, json := none }

def getParams1 : String → Option String := fun k =>
  if k = "state" then some "goodstate" else if k = "code" then some "authcode" else none

def timeouts0 : String → Option ℚ := fun a =>
  if a = "user@example.com" then some 300 else none

def cache1 : String → Option String := fun k =>
  if k = "https://id.example.com/" then some "https://auth.example.com/auth" else none

def fetchPage1 : String → FetchedPage := fun _ =>
  { links := [("authorization_endpoint", "https://other.example.com/auth")], soup := ⟨none⟩ }

def ujoin1 : String → String → String := fun _ r => r

def wfFetch404 : String → Except PyExc WfResponse := fun _ =>
  .ok { status_code := 404, links := none }

/-! ## Theorems for the claims -/

/-- Helper: everything that holds when verify_id succeeds. -/
theorem verify_id_some_elim (orig resp u : ParsedUrl)
    (h : verify_id orig resp = some u) :
    orig.netloc = resp.netloc ∧
    ∃ norm, respNormSegs resp = some norm ∧
      norm.take (origSegs orig).length = origSegs orig ∧
      u = { resp with path := strJoin '/' norm } := by
  unfold verify_id at h
  split at h
  · exact absurd h (by simp)
  next hniq =>
    split at h
    next => exact absurd h (by simp)
    next norm heq =>
      split at h
      next => exact absurd h (by simp)
      next htk =>
        exact ⟨not_not.mp hniq, norm, heq, not_not.mp htk, (Option.some.inj h).symm⟩

/-- Claim C2: for every pair of parsed URLs whose netloc components
differ, verify_id returns none. -/
theorem C2_netloc_mismatch_rejected (orig resp : ParsedUrl)
    (h : orig.netloc ≠ resp.netloc) : verify_id orig resp = none := by
  simp [verify_id, h]

theorem C2_witness :
    (urlparse "https://a.example.com/user").netloc ≠
      (urlparse "https://b.example.com/user").netloc ∧
    verify_id (urlparse "https://a.example.com/user")
      (urlparse "https://b.example.com/user") = none :=
  ⟨by decide, C2_netloc_mismatch_rejected _ _ (by decide)⟩

/-- Claim C3: whenever left-to-right normalization of the response path
pops the segment stack past the root (the normalization loop rejects),
verify_id returns none, for every request URL. -/
theorem C3_escape_above_root_rejected (orig resp : ParsedUrl)
    (h : normLoop [""] (strSplit resp.path '/') = none) :
    verify_id orig resp = none := by
  unfold verify_id
  split
  · rfl
  · unfold respNormSegs
    simp only [h]

theorem C3_witness :
    normLoop [""] (strSplit (urlparse "https://ex.com/a/../../b").path '/') = none ∧
    verify_id (urlparse "https://ex.com/user") (urlparse "https://ex.com/a/../../b") = none :=
  ⟨by decide, C3_escape_above_root_rejected _ _ (by decide)⟩

/-- Claim C4: verify_id performs a trailing-slash-tolerant prefix match:
the stated slash example succeeds, the sibling-path example fails, and in
general a URL is returned only when the leading segments of the normalized
response path equal the request segments (after dropping a single trailing
empty segment) exactly. -/
theorem C4_leading_segments_match :
    verify_id_str "https://ex.com/user" "https://ex.com/user/" = some "https://ex.com/user/" ∧
    verify_id_str "https://ex.com/user" "https://ex.com/other" = none ∧
    ∀ orig resp u, verify_id orig resp = some u →
      ∃ norm, respNormSegs resp = some norm ∧
        norm.take (origSegs orig).length = origSegs orig := by
  refine ⟨by decide, by decide, ?_⟩
  intro orig resp u h
  obtain ⟨-, norm, hs, ht, -⟩ := verify_id_some_elim orig resp u h
  exact ⟨norm, hs, ht⟩

theorem C4_witness :
    verify_id (urlparse "https://ex.com/user") (urlparse "https://ex.com/user/x") =
      some (urlparse "https://ex.com/user/x") ∧
    ∃ norm, respNormSegs (urlparse "https://ex.com/user/x") = some norm ∧
      norm.take (origSegs (urlparse "https://ex.com/user")).length =
        origSegs (urlparse "https://ex.com/user") :=
  ⟨by decide,
   C4_leading_segments_match.2.2 (urlparse "https://ex.com/user") (urlparse "https://ex.com/user/x")
     (urlparse "https://ex.com/user/x") (by decide)⟩

/-- Claim C10: whenever verify_id returns a URL, that URL is the response
URL with only its path replaced by the joined normalized segments: scheme,
netloc, params, query and fragment are unchanged from the response, and
the netloc also equals the netloc of the request. -/
theorem C10_only_path_replaced (orig resp u : ParsedUrl)
    (h : verify_id orig resp = some u) :
    u.scheme = resp.scheme ∧ u.netloc = resp.netloc ∧ u.params = resp.params ∧
    u.query = resp.query ∧ u.fragment = resp.fragment ∧
    (∃ norm, respNormSegs resp = some norm ∧ u.path = strJoin '/' norm) ∧
    u.netloc = orig.netloc := by
  obtain ⟨hn, norm, hs, -, hu⟩ := verify_id_some_elim orig resp u h
  subst hu
  exact ⟨rfl, rfl, rfl, rfl, rfl, ⟨norm, hs, rfl⟩, hn.symm⟩

theorem C10_witness :
    (urlparse "https://ex.com/user?q=1#f").scheme = "https" ∧
    ((verify_id (urlparse "https://ex.com/user") (urlparse "https://ex.com/user?q=1#f")).map
      (fun u => (u.scheme, u.netloc, u.params, u.query, u.fragment)) =
        some ("https", "ex.com", "", "q=1", "f")) ∧
    (urlparse "https://ex.com/user?q=1#f").netloc = (urlparse "https://ex.com/user").netloc := by
  have h : verify_id (urlparse "https://ex.com/user") (urlparse "https://ex.com/user?q=1#f") =
      some { urlparse "https://ex.com/user?q=1#f" with path := "/user" } := by decide
  have hc := C10_only_path_replaced _ _ _ h
  refine ⟨by decide, ?_, by decide⟩
  rw [h]
  simp only [Option.map_some]
  rw [hc.1, hc.2.1, hc.2.2.1, hc.2.2.2.1, hc.2.2.2.2.1]
  decide

/-- Helper: the handles_url loop returns the first truthy handler with its
enumeration index, whatever follows it. -/
theorem findFirstUrl_append (url : String) (pre : List PyHandler) (h : PyHandler)
    (rest : List PyHandler) (n : Nat)
    (hpre : ∀ g ∈ pre, pyStrTruthy (g.handles_url url) = false)
    (hh : pyStrTruthy (h.handles_url url) = true) :
    findFirstUrl url (pre ++ h :: rest) n = some (h, n + pre.length) := by
  induction pre generalizing n with
  | nil => simp [findFirstUrl, hh]
  | cons g gs ih =>
    have hg : pyStrTruthy (g.handles_url url) = false := hpre g (by simp)
    have step := ih (n + 1) (fun x hx => hpre x (by simp [hx]))
    simp only [List.cons_append, findFirstUrl, hg, Bool.false_eq_true, if_false,
      List.length_cons]
    show findFirstUrl url (gs ++ h :: rest) (n + 1) = some (h, n + (gs.length + 1))
    rw [step]
    simp only [Option.some.injEq, Prod.mk.injEq, true_and]
    omega

/-- Helper: the handles_url loop finds nothing when no handler is truthy. -/
theorem findFirstUrl_none (url : String) (hs : List PyHandler) (n : Nat)
    (h : ∀ g ∈ hs, pyStrTruthy (g.handles_url url) = false) :
    findFirstUrl url hs n = none := by
  induction hs generalizing n with
  | nil => rfl
  | cons g gs ih =>
    simp only [findFirstUrl, h g (by simp), Bool.false_eq_true, if_false]
    exact ih (n + 1) (fun x hx => h x (by simp [hx]))

/-- Claim C6: get_handler_for_url consults handlers in registration order
and returns the first handler whose handles_url result is non-empty,
together with its registration index; the handlers after it and the page
fetch do not influence the result. -/
theorem C6_first_match (pre : List PyHandler) (h : PyHandler) (rest : List PyHandler)
    (httpGet : String → Except PyExc GetResponse) (url : String)
    (hpre : ∀ g ∈ pre, pyStrTruthy (g.handles_url url) = false)
    (hh : pyStrTruthy (h.handles_url url) = true) :
    get_handler_for_url (pre ++ h :: rest) httpGet url = .ok (some (h, pre.length)) := by
  unfold get_handler_for_url
  rw [findFirstUrl_append url pre h rest 0 hpre hh]
  simp

theorem C6_witness :
    pyStrTruthy (handlerA.handles_url "https://user.example.com/") = true ∧
    pyStrTruthy (handlerB.handles_url "https://user.example.com/") = true ∧
    get_handler_for_url [handlerA, handlerB] okGet "https://user.example.com/" =
      .ok (some (handlerA, 0)) :=
  ⟨by decide, by decide,
   C6_first_match [] handlerA [handlerB] okGet "https://user.example.com/"
     (by simp) (by decide)⟩

/-- Claim C5 counterexample: with one registered handler that claims
nothing and an HTTP GET that fails with a network error, the dispatcher
propagates the network error instead of returning the no-handler result
(the source wraps `requests.get(url)` in no exception handler). -/
theorem C5_counterexample :
    get_handler_for_url [nullHandler] failGet "https://nohandler.example/" =
      .error (.netError "ConnectionError") ∧
    get_handler_for_url [nullHandler] failGet "https://nohandler.example/" ≠
      .ok none := by
  have hx : get_handler_for_url [nullHandler] failGet "https://nohandler.example/" =
      .error (.netError "ConnectionError") := rfl
  exact ⟨hx, fun h => Except.noConfusion (hx.symm.trans h)⟩

/-- Claim C5 as amended: when no registered handler claims the raw string
and the HTTP GET probe fails with a network error, get_handler_for_url
raises that network error to its caller; the no-handler result is only
produced when the GET succeeds. -/
theorem C5_network_error_propagates (handlers : List PyHandler)
    (httpGet : String → Except PyExc GetResponse) (url : String) (e : PyExc)
    (hnone : ∀ g ∈ handlers, pyStrTruthy (g.handles_url url) = false)
    (hfail : httpGet url = .error e) :
    get_handler_for_url handlers httpGet url = .error e := by
  unfold get_handler_for_url
  rw [findFirstUrl_none url handlers 0 hnone, hfail]

theorem C5_witness :
    failGet "https://second.example/" = .error (.netError "ConnectionError") ∧
    get_handler_for_url [] failGet "https://second.example/" =
      .error (.netError "ConnectionError") :=
  ⟨rfl, C5_network_error_propagates [] failGet "https://second.example/"
    (.netError "ConnectionError") (by simp) rfl⟩

/-- Claim C1: evaluation of check_callback at a callback whose state token
resolves and whose code exchange answers HTTP 200 with a body that is not
valid JSON: the invalid-JSON branch evaluates the nonexistent Response
attribute `headersversion` while logging, so the call raises
AttributeError instead of returning the Error disposition the claim (and
the own intent of that branch) requires. -/
theorem C1_invalid_json_raises :
    check_callback unpack1 postBadJson getParams1 =
      .error (.attributeError "headersversion") := rfl

/-- Helper: the value of one rate-limited initiate_auth call. -/
theorem email_rl_step (timeouts : String → Option ℚ) (lifetime : ℚ) (cdata : String)
    (now : ℚ) (addr : String) (t : ℚ)
    (hmem : timeouts addr = some t) (hfut : t > now) :
    email_initiate_auth timeouts lifetime cdata now addr =
      { disp := .error (waitErrorMsg addr (ratCeil ((t - now) * (6 / 5) / 60))) none
        sent := false
        timeouts := fun a => if a = addr then some (now + (t - now) * (6 / 5))
                             else timeouts a } := by
  unfold email_initiate_auth
  simp only [hmem]
  rw [if_pos hfut]

/-- Claim C7: a call inside the cooldown window sends nothing, extends the
entry so that the new remaining wait is 6/5 of the previous remaining
wait, and returns an Error reporting the extended wait rounded up to
minutes; a second call at the same instant again returns such an Error,
its pre-rounding wait being 6/5 times the wait the first call reported. -/
theorem C7_rate_limit (timeouts : String → Option ℚ) (lifetime : ℚ) (cdata : String)
    (now : ℚ) (addr : String) (t : ℚ)
    (hmem : timeouts addr = some t) (hfut : now < t) :
    (email_initiate_auth timeouts lifetime cdata now addr).sent = false ∧
    (email_initiate_auth timeouts lifetime cdata now addr).timeouts addr =
      some (now + (t - now) * (6 / 5)) ∧
    (email_initiate_auth timeouts lifetime cdata now addr).disp =
      .error (waitErrorMsg addr (ratCeil ((t - now) * (6 / 5) / 60))) none ∧
    (email_initiate_auth (email_initiate_auth timeouts lifetime cdata now addr).timeouts
        lifetime cdata now addr).sent = false ∧
    (email_initiate_auth (email_initiate_auth timeouts lifetime cdata now addr).timeouts
        lifetime cdata now addr).disp =
      .error (waitErrorMsg addr (ratCeil ((t - now) * (6 / 5) * (6 / 5) / 60))) none ∧
    (email_initiate_auth (email_initiate_auth timeouts lifetime cdata now addr).timeouts
        lifetime cdata now addr).timeouts addr =
      some (now + (t - now) * (6 / 5) * (6 / 5)) := by
  have e1 := email_rl_step timeouts lifetime cdata now addr t hmem hfut
  have tm1 : (email_initiate_auth timeouts lifetime cdata now addr).timeouts addr =
      some (now + (t - now) * (6 / 5)) := by rw [e1]; simp
  have hfut2 : now + (t - now) * (6 / 5) > now := by nlinarith
  have e2 := email_rl_step (email_initiate_auth timeouts lifetime cdata now addr).timeouts
    lifetime cdata now addr (now + (t - now) * (6 / 5)) tm1 hfut2
  have harith : now + (t - now) * (6 / 5) - now = (t - now) * (6 / 5) := by ring
  refine ⟨by rw [e1], tm1, by rw [e1], by rw [e2], ?_, ?_⟩
  · rw [e2, harith]
  · rw [e2]
    simp [harith]

theorem C7_witness :
    timeouts0 "user@example.com" = some 300 ∧ (0 : ℚ) < 300 ∧
    ((email_initiate_auth timeouts0 900 "cdata" 0 "user@example.com").sent = false ∧
     (email_initiate_auth timeouts0 900 "cdata" 0 "user@example.com").timeouts
        "user@example.com" = some (0 + (300 - 0) * (6 / 5)) ∧
     (email_initiate_auth timeouts0 900 "cdata" 0 "user@example.com").disp =
       .error (waitErrorMsg "user@example.com" (ratCeil ((300 - 0) * (6 / 5) / 60))) none ∧
     (email_initiate_auth
        (email_initiate_auth timeouts0 900 "cdata" 0 "user@example.com").timeouts
        900 "cdata" 0 "user@example.com").sent = false ∧
     (email_initiate_auth
        (email_initiate_auth timeouts0 900 "cdata" 0 "user@example.com").timeouts
        900 "cdata" 0 "user@example.com").disp =
       .error (waitErrorMsg "user@example.com"
         (ratCeil ((300 - 0) * (6 / 5) * (6 / 5) / 60))) none ∧
     (email_initiate_auth
        (email_initiate_auth timeouts0 900 "cdata" 0 "user@example.com").timeouts
        900 "cdata" 0 "user@example.com").timeouts "user@example.com" =
       some (0 + (300 - 0) * (6 / 5) * (6 / 5))) :=
  ⟨rfl, by norm_num,
   C7_rate_limit timeouts0 900 "cdata" 0 "user@example.com" 300 rfl (by norm_num)⟩

/-- Claim C8: with a populated endpoint cache entry for the identity URL
and neither links nor content supplied, find_endpoint returns the cached
endpoint and performs no network fetch. -/
theorem C8_cache_hit (ujoin : String → String → String)
    (cache : String → Option String) (fetchPage : String → FetchedPage)
    (u e : String) (hu : u ≠ "") (he : e ≠ "") (hc : cache u = some e) :
    (find_endpoint ujoin cache fetchPage (some u) [] none).endpoint = some e ∧
    (find_endpoint ujoin cache fetchPage (some u) [] none).fetched = false := by
  unfold find_endpoint
  simp [hc, pyStrTruthy, hu, he]

theorem C8_witness :
    "https://id.example.com/" ≠ "" ∧ "https://auth.example.com/auth" ≠ "" ∧
    cache1 "https://id.example.com/" = some "https://auth.example.com/auth" ∧
    ((find_endpoint ujoin1 cache1 fetchPage1 (some "https://id.example.com/") []
        none).endpoint = some "https://auth.example.com/auth" ∧
     (find_endpoint ujoin1 cache1 fetchPage1 (some "https://id.example.com/") []
        none).fetched = false) :=
  ⟨by decide, by decide, rfl,
   C8_cache_hit ujoin1 cache1 fetchPage1 "https://id.example.com/"
     "https://auth.example.com/auth" (by decide) (by decide) rfl⟩

/-- Claim C9: for an input matching the webfinger pattern whose query
receives a response with a status code outside the 2xx range, get_profiles
returns exactly the one-element set with the fallback profile URL. -/
theorem C9_webfinger_fallback (fetch : String → Except PyExc WfResponse)
    (url user domain : String) (resp : WfResponse)
    (hmatch : webfinger_match url = some (user, domain))
    (hfetch : fetch (wfResource user domain) = .ok resp)
    (hstatus : ¬ (200 ≤ resp.status_code ∧ resp.status_code < 300)) :
    get_profiles fetch url = ["https://" ++ domain ++ "/@" ++ user] := by
  unfold get_profiles
  simp only [hmatch]
  simp only [hfetch]
  rw [if_pos hstatus]

theorem C9_witness :
    webfinger_match "@alice@example.com" = some ("alice", "example.com") ∧
    wfFetch404 (wfResource "alice" "example.com") = .ok { status_code := 404, links := none } ∧
    ¬ (200 ≤ (404 : Nat) ∧ (404 : Nat) < 300) ∧
    get_profiles wfFetch404 "@alice@example.com" = ["https://example.com/@alice"] :=
  ⟨by decide, rfl, by decide,
   C9_webfinger_fallback wfFetch404 "@alice@example.com" "alice" "example.com"
     { status_code := 404, links := none } (by decide) rfl (by decide)⟩

end Authl
